import Mathlib

/- Shallow embedding of the ActronAir Neo data coordinator
   (custom_components/actronair_neo/coordinator.py).

   Python values flowing through the coordinator are modelled by the
   JSON-like type JVal; Python exceptions raised by the modelled code are
   modelled by PyErr.  Dictionary access mirrors Python semantics:
   `d.get(k, default)` needs a dict receiver (else AttributeError),
   `d[k]` raises KeyError / TypeError, and truthiness follows Python. -/

inductive JVal where
  | null : JVal
  | bool : Bool → JVal
  | num : ℚ → JVal
  | str : String → JVal
  | arr : List JVal → JVal
  | obj : List (String × JVal) → JVal

inductive PyErr where
  | attributeError : PyErr
  | typeError : PyErr
  | keyError : String → PyErr
  | indexError : PyErr
  | valueError : String → PyErr
deriving DecidableEq

/-- Python truthiness for the modelled values. -/
def truthy : JVal → Bool
  | .null => false
  | .bool b => b
  | .num q => !(q == 0)
  | .str s => !(s == "")
  | .arr l => !l.isEmpty
  | .obj l => !l.isEmpty

/-- Pure field access used in statements: `obj` lookup, `null` on any miss. -/
def getField (v : JVal) (k : String) : JVal :=
  match v with
  | .obj fs => (fs.lookup k).getD .null
  | _ => .null

/-- Pure field access with a default, the total counterpart of `dict.get`. -/
def getFieldD (v : JVal) (k : String) (d : JVal) : JVal :=
  match v with
  | .obj fs => (fs.lookup k).getD d
  | _ => d

/-- Python `receiver.get(k, d)`: AttributeError unless the receiver is a dict. -/
def pyGet (v : JVal) (k : String) (d : JVal) : Except PyErr JVal :=
  match v with
  | .obj fs => .ok ((fs.lookup k).getD d)
  | _ => .error .attributeError

/-- Python subscription `receiver[k]`: KeyError when the key is absent,
TypeError when the receiver is not a dict (e.g. None). -/
def pyIndex (v : JVal) (k : String) : Except PyErr JVal :=
  match v with
  | .obj fs =>
    match fs.lookup k with
    | some x => .ok x
    | none => .error (.keyError k)
  | _ => .error .typeError

/-- A string method invoked on a non-string raises AttributeError. -/
def asStr : JVal → Except PyErr String
  | .str s => .ok s
  | _ => .error .attributeError

/-- Iterating / measuring something that is not a list fails. -/
def asArr : JVal → Except PyErr (List JVal)
  | .arr l => .ok l
  | _ => .error .typeError

/-- Python `s.endswith(suf)`. -/
def strEndsWith (s suf : String) : Bool :=
  decide (suf.data.length ≤ s.data.length) &&
    (s.data.drop (s.data.length - suf.data.length) == suf.data)

/-- Python `str.split(sep)` on the character level: the list of chunks
between occurrences of the separator (always non-empty). -/
def splitCharList (c : Char) : List Char → List (List Char)
  | [] => [[]]
  | x :: xs =>
    match splitCharList c xs with
    | [] => [[]]
    | h :: t => if x == c then [] :: h :: t else (x :: h) :: t

/-- Python `s.split(c)`. -/
def pySplit (c : Char) (s : String) : List String :=
  (splitCharList c s.data).map (fun l => String.mk l)

/-- Lines 111-112 of the coordinator: strip suffix segments from the raw fan
mode, splitting at a plus sign first and then at a dash on the result. -/
def baseFanMode (s : String) : String :=
  let b := if s.data.contains '+' then String.mk ((splitCharList '+' s.data).headD []) else s
  if b.data.contains '-' then String.mk ((splitCharList '-' b.data).headD []) else b

/-- Python `str.upper()` (ASCII, as used for fan modes). -/
def pyUpper (s : String) : String := String.mk (s.data.map Char.toUpper)

def charDigit? (ch : Char) : Option Nat :=
  if 48 ≤ ch.toNat ∧ ch.toNat ≤ 57 then some (ch.toNat - 48) else none

def digitsToNat? (l : List Char) : Option Nat :=
  if l.isEmpty then none
  else
    l.foldl
      (fun acc ch =>
        match acc, charDigit? ch with
        | some a, some d => some (a * 10 + d)
        | _, _ => none)
      (some 0)

/-- Python `int(s)` on the strings the coordinator feeds it: an optional
sign followed by decimal digits, `none` modelling ValueError. -/
def pyInt? (s : String) : Option Int :=
  match s.data with
  | '-' :: rest => (digitsToNat? rest).map (fun n => -(n : Int))
  | '+' :: rest => (digitsToNat? rest).map (fun n => (n : Int))
  | l => (digitsToNat? l).map (fun n => (n : Int))

def MAX_ZONES : Nat := 8

/-- The zone identifier string `f"zone_{i+1}"` for 0-based position `i`. -/
def zoneKey (i : Nat) : String := "zone_" ++ toString (i + 1)

/-- Numeric view used by Python `==` (booleans compare equal to 0/1). -/
def pyEqNum : JVal → Option ℚ
  | .bool b => some (if b then 1 else 0)
  | .num q => some q
  | _ => none

/-- Python `v == [q]` against a one-element numeric list, the only shape the
coordinator compares (`peripheral.get("ZoneAssignment", []) == [i + 1]`). -/
def eqSingletonNum (v : JVal) (q : ℚ) : Bool :=
  match v with
  | .arr [x] =>
    match pyEqNum x with
    | some y => y == q
    | none => false
  | _ => false

/-- Lines 167-176: scan the peripherals list for the first entry whose
`ZoneAssignment` equals `[i + 1]`; every entry inspected must be a dict. -/
def findPeripheral (i : Nat) : List JVal → Except PyErr (Option (List (String × JVal)))
  | [] => .ok none
  | p :: rest =>
    match p with
    | .obj pfs =>
      if eqSingletonNum ((pfs.lookup "ZoneAssignment").getD (.arr [])) ((i : ℚ) + 1) then
        .ok (some pfs)
      else findPeripheral i rest
    | _ => .error .attributeError

/-- Lines 159-178: the per-zone dictionary for an existing zone at 0-based
position `i`, including the enabled flag from `EnabledZones` (with the
out-of-bounds default False) and any peripheral battery fields. -/
def mkZoneData (i : Nat) (zfs : List (String × JVal)) (ezv : JVal) (periphV : JVal) :
    Except PyErr JVal := do
  let isEnabled ←
    match ezv with
    | .arr ez => Except.ok (if i < ez.length then ez.getD i (.bool false) else JVal.bool false)
    | _ => Except.error PyErr.typeError
  let base := [("name", (zfs.lookup "NV_Title").getD (.str ("Zone " ++ toString (i + 1)))),
               ("temp", (zfs.lookup "LiveTemp_oC").getD .null),
               ("humidity", (zfs.lookup "LiveHumidity_pc").getD .null),
               ("is_enabled", isEnabled)]
  let pl ← asArr periphV
  match ← findPeripheral i pl with
  | none => pure (JVal.obj base)
  | some pfs =>
    pure (JVal.obj (base ++
      [("battery_level", (pfs.lookup "RemainingBatteryCapacity_pc").getD .null),
       ("signal_strength", (pfs.lookup "Signal_of3").getD .null),
       ("peripheral_type", (pfs.lookup "DeviceType").getD .null),
       ("last_connection", (pfs.lookup "LastConnectionTime").getD .null),
       ("connection_state", (pfs.lookup "ConnectionState").getD .null)]))

/-- Lines 156-178: the zone loop.  `n` is the absolute 0-based position of
the head of the remaining list; positions at or beyond MAX_ZONES are
skipped, zones not marked `NV_Exists` (truthily) are skipped. -/
def buildZones (ezv periphV : JVal) : Nat → List JVal → Except PyErr (List (String × JVal))
  | _, [] => .ok []
  | n, z :: rest =>
    if n < MAX_ZONES then
      match z with
      | .obj zfs =>
        if truthy ((zfs.lookup "NV_Exists").getD (.bool false)) then do
          let zd ← mkZoneData n zfs ezv periphV
          let tail ← buildZones ezv periphV (n + 1) rest
          pure ((zoneKey n, zd) :: tail)
        else buildZones ezv periphV (n + 1) rest
      | _ => .error .attributeError
    else buildZones ezv periphV (n + 1) rest

/-- The values of `_parse_data` live up to the `self._continuous_fan`
assignment on line 143: the derived continuity flag, the `main` dictionary,
and the sections needed by the zone loop. -/
structure Phase1Out where
  isCont : Bool
  mainObj : JVal
  lks : JVal
  acsys : JVal
  ezv : JVal

/-- Lines 99-140 of `_parse_data`: section extraction, fan-mode handling and
the `main` dictionary, in source order. -/
def phase1 (data : JVal) : Except PyErr Phase1Out := do
  let lks ← pyGet data "lastKnownState" (.obj [])
  let uas ← pyGet lks "UserAirconSettings" (.obj [])
  let master ← pyGet lks "MasterInfo" (.obj [])
  let live ← pyGet lks "LiveAircon" (.obj [])
  let acsys ← pyGet lks "AirconSystem" (.obj [])
  let alerts ← pyGet lks "Alerts" (.obj [])
  let fanModeV ← pyGet uas "FanMode" (.str "")
  let fanMode ← asStr fanModeV
  let isCont := strEndsWith fanMode "+CONT"
  let baseFan := baseFanMode fanMode
  let isOn ← pyGet uas "isOn" (.bool false)
  let mode ← pyGet uas "Mode" (.str "OFF")
  let tsc ← pyGet uas "TemperatureSetpoint_Cool_oC" .null
  let tsh ← pyGet uas "TemperatureSetpoint_Heat_oC" .null
  let itemp ← pyGet master "LiveTemp_oC" .null
  let ihum ← pyGet master "LiveHumidity_pc" .null
  let comp ← pyGet live "CompressorMode" (.str "OFF")
  let ezv ← pyGet uas "EnabledZones" (.arr [])
  let away ← pyGet uas "AwayMode" (.bool false)
  let quiet ← pyGet uas "QuietMode" (.bool false)
  let model ← pyGet acsys "MasterWCModel" .null
  let serial ← pyGet acsys "MasterSerial" .null
  let fw ← pyGet acsys "MasterWCFirmwareVersion" .null
  let filterClean ← pyGet alerts "CleanFilter" (.bool false)
  let defrosting ← pyGet alerts "Defrosting" (.bool false)
  pure ⟨isCont,
        JVal.obj [("is_on", isOn), ("mode", mode), ("fan_mode", .str fanMode),
                  ("fan_continuous", .bool isCont), ("base_fan_mode", .str baseFan),
                  ("temp_setpoint_cool", tsc), ("temp_setpoint_heat", tsh),
                  ("indoor_temp", itemp), ("indoor_humidity", ihum),
                  ("compressor_state", comp), ("EnabledZones", ezv),
                  ("away_mode", away), ("quiet_mode", quiet), ("model", model),
                  ("serial_number", serial), ("firmware_version", fw),
                  ("filter_clean_required", filterClean), ("defrosting", defrosting)],
        lks, acsys, ezv⟩

/-- Lines 152-178 of `_parse_data`: extract the zone and peripheral arrays
and run the zone loop. -/
def phase2 (po : Phase1Out) : Except PyErr (List (String × JVal)) := do
  let rziV ← pyGet po.lks "RemoteZoneInfo" (.arr [])
  let periphV ← pyGet po.acsys "Peripherals" (.arr [])
  let rzi ← asArr rziV
  buildZones po.ezv periphV 0 rzi

/-- Model of `_parse_data` (lines 86-184).  The first component is the value the
method leaves in `self._continuous_fan`: the caller's value when the parse
fails before line 143, the freshly derived flag afterwards.  The second
component is the parsed dictionary, or the error wrapped into UpdateFailed. -/
def parse_data (cf : Bool) (data : JVal) : Bool × Except PyErr JVal :=
  match phase1 data with
  | .error e => (cf, .error e)
  | .ok po =>
    match phase2 po with
    | .error e => (po.isCont, .error e)
    | .ok zones =>
      (po.isCont, .ok (JVal.obj [("raw_data", data), ("main", po.mainObj), ("zones", .obj zones)]))

/-- The coordinator state touched by the modelled methods: the
`enable_zone_control` flag, `last_data` (None ≈ `.null` before the first
successful refresh) and `_continuous_fan`. -/
structure Coordinator where
  enable_zone_control : Bool
  last_data : JVal
  continuous_fan : Bool

/-- Behaviour of the one `get_ac_status` call a refresh may perform. -/
inductive ApiResponse where
  | ok : JVal → ApiResponse
  | authError : String → ApiResponse
  | apiError : String → ApiResponse
  | unexpectedError : String → ApiResponse

/-- What `_async_update_data` hands back to the host: fresh or cached data,
a ConfigEntryAuthFailed signal, or UpdateFailed. -/
inductive UpdateResult where
  | data : JVal → UpdateResult
  | configEntryAuthFailed : UpdateResult
  | updateFailed : String → UpdateResult

structure UpdateOutcome where
  result : UpdateResult
  coord : Coordinator
  getStatusCalls : Nat

/-- Model of `_async_update_data` (lines 57-84).  `healthy` is what
`api.is_api_healthy()` reports; `resp` is how the single `get_ac_status`
call would behave were it made; `getStatusCalls` counts how many times it
actually was made. -/
def async_update_data (c : Coordinator) (healthy : Bool) (resp : ApiResponse) : UpdateOutcome :=
  if healthy = false then
    { result := .data (if truthy c.last_data then c.last_data else .obj []),
      coord := c, getStatusCalls := 0 }
  else
    match resp with
    | .ok status =>
      match parse_data c.continuous_fan status with
      | (cf2, .ok parsed) =>
        { result := .data parsed,
          coord := { c with continuous_fan := cf2, last_data := parsed },
          getStatusCalls := 1 }
      | (cf2, .error _) =>
        if truthy c.last_data then
          { result := .data c.last_data,
            coord := { c with continuous_fan := cf2 }, getStatusCalls := 1 }
        else
          { result := .updateFailed "Unexpected error: Failed to parse API response",
            coord := { c with continuous_fan := cf2 }, getStatusCalls := 1 }
    | .authError _ =>
      { result := .configEntryAuthFailed, coord := c, getStatusCalls := 1 }
    | .apiError m =>
      if truthy c.last_data then
        { result := .data c.last_data, coord := c, getStatusCalls := 1 }
      else
        { result := .updateFailed ("Error communicating with API: " ++ m),
          coord := c, getStatusCalls := 1 }
    | .unexpectedError m =>
      if truthy c.last_data then
        { result := .data c.last_data, coord := c, getStatusCalls := 1 }
      else
        { result := .updateFailed ("Unexpected error: " ++ m),
          coord := c, getStatusCalls := 1 }

/-- Vendor commands built through `api.create_command`. -/
inductive Command where
  | off : Command
  | climateMode : String → Command
  | setTemp : ℚ → Bool → Command
  | setZoneTemp : Int → ℚ → String → Command
  | setZoneState : List JVal → Command

/-- Outcome of a command method: the propagated exception or success, the
commands handed to `api.send_command` (in order), and the coordinator state
the method leaves behind (before the reconciling refresh). -/
structure CmdOutcome where
  result : Except PyErr Unit
  sentCommands : List Command
  coord : Coordinator

/-- Model of `int(zone_id.split('_')[1]) - 1` (with IndexError when there is no
second chunk and ValueError when it is not an integer literal). -/
def zoneIndexFromId (s : String) : Except PyErr Int :=
  match (pySplit '_' s).get? 1 with
  | none => .error .indexError
  | some part =>
    match pyInt? part with
    | none => .error (.valueError ("invalid literal for int: " ++ part))
    | some n => .ok (n - 1)

/-- Model of `set_zone_temperature` (lines 296-338): validation happens before any
API interaction, in source order. -/
def set_zone_temperature (c : Coordinator) (zone_id : String) (temperature : ℚ)
    (temp_key : String) : CmdOutcome :=
  if c.enable_zone_control = false then
    ⟨.error (.valueError "Zone control is not enabled"), [], c⟩
  else if truthy c.last_data = false then
    ⟨.error (.valueError "No system data available"), [], c⟩
  else
    match pyGet c.last_data "zones" (.obj []) with
    | .error e => ⟨.error e, [], c⟩
    | .ok zones_data =>
      match pyGet zones_data zone_id .null with
      | .error e => ⟨.error e, [], c⟩
      | .ok zone_data =>
        if truthy zone_data = false then
          ⟨.error (.valueError ("Zone " ++ zone_id ++ " not found")), [], c⟩
        else
          match pyGet zone_data "is_enabled" (.bool false) with
          | .error e => ⟨.error e, [], c⟩
          | .ok en =>
            if truthy en = false then
              ⟨.error (.valueError ("Zone " ++ zone_id ++ " is not enabled")), [], c⟩
            else
              match zoneIndexFromId zone_id with
              | .error e => ⟨.error e, [], c⟩
              | .ok zone_index =>
                ⟨.ok (), [Command.setZoneTemp zone_index temperature temp_key], c⟩

/-- The two accepted forms of the `set_zone_state` zone argument. -/
inductive ZoneSel where
  | str : String → ZoneSel
  | int : Int → ZoneSel

/-- Lines 348-351: resolve either argument form to a 0-based index. -/
def zoneIndexOf : ZoneSel → Except PyErr Int
  | .str s => zoneIndexFromId s
  | .int n => .ok n

/-- Model of `set_zone_state` (lines 340-367): resolve the index, read
`self.last_data["main"]["EnabledZones"]`, copy it, and either send the
modified list (in-bounds) or raise ValueError (out of range). -/
def set_zone_state (c : Coordinator) (zone_id : ZoneSel) (enable : Bool) : CmdOutcome :=
  match zoneIndexOf zone_id with
  | .error e => ⟨.error e, [], c⟩
  | .ok zone_index =>
    match pyIndex c.last_data "main" with
    | .error e => ⟨.error e, [], c⟩
    | .ok m =>
      match pyIndex m "EnabledZones" with
      | .error e => ⟨.error e, [], c⟩
      | .ok ezv =>
        match ezv with
        | .arr ez =>
          if 0 ≤ zone_index ∧ zone_index < (ez.length : Int) then
            ⟨.ok (), [Command.setZoneState (ez.set zone_index.toNat (.bool enable))], c⟩
          else
            ⟨.error (.valueError ("Zone index " ++ toString zone_index ++ " out of range")), [], c⟩
        | _ => ⟨.error .typeError, [], c⟩

/-- Outcome of `set_fan_mode`: exception or success, the `(base, continuous)`
pairs handed to `api.set_fan_mode`, and the coordinator afterwards. -/
structure FanOutcome where
  result : Except PyErr Unit
  sentFanCalls : List (String × Bool)
  coord : Coordinator

def validFanModes : List String := ["LOW", "MED", "HIGH", "AUTO"]

/-- Lines 246-250: uppercase the requested mode and fall back to LOW when it
is not one of the recognized base modes. -/
def pyFanBase (mode : String) : String :=
  let b := pyUpper mode
  if validFanModes.contains b then b else "LOW"

/-- Model of `set_fan_mode` (lines 233-294) up to the local state update: validate the
base mode, resolve the sticky continuous flag from `self.data` when the
caller left it unspecified, read `self.data["main"]` again for the debug log,
then send and record the continuity locally.  `selfData` is the framework's
`self.data` (the last value returned by `_async_update_data`). -/
def set_fan_mode (c : Coordinator) (selfData : JVal) (mode : String)
    (continuous : Option Bool) : FanOutcome :=
  let base := pyFanBase mode
  let contRes : Except PyErr Bool :=
    match continuous with
    | some b => .ok b
    | none => do
      let m ← pyIndex selfData "main"
      let fmv ← pyGet m "fan_mode" (.str "")
      let fm ← asStr fmv
      pure (strEndsWith fm "+CONT")
  match contRes with
  | .error e => ⟨.error e, [], c⟩
  | .ok cont =>
    match (do
        let m ← pyIndex selfData "main"
        pyGet m "fan_mode" .null : Except PyErr JVal) with
    | .error e => ⟨.error e, [], c⟩
    | .ok _ => ⟨.ok (), [(base, cont)], { c with continuous_fan := cont }⟩

/-- Pure extraction of the vendor zone array a payload carries, with the
same defaults `_parse_data` applies. -/
def rziOf (data : JVal) : List JVal :=
  match getFieldD (getFieldD data "lastKnownState" (.obj [])) "RemoteZoneInfo" (.arr []) with
  | .arr l => l
  | _ => []

/-- Pure extraction of the `EnabledZones` value a payload carries. -/
def ezOf (data : JVal) : JVal :=
  getFieldD (getFieldD (getFieldD data "lastKnownState" (.obj [])) "UserAirconSettings" (.obj []))
    "EnabledZones" (.arr [])

/-- Pure extraction of the zones dictionary of a parsed state. -/
def zonesOf (v : JVal) : List (String × JVal) :=
  match getField v "zones" with
  | .obj l => l
  | _ => []

def exOk : Except PyErr JVal → JVal
  | .ok v => v
  | .error _ => .null

def exIsOk : Except PyErr JVal → Bool
  | .ok _ => true
  | .error _ => false

def resultIsValueError : Except PyErr Unit → Bool
  | .error (.valueError _) => true
  | _ => false

/-- One entry of the normalized zones mapping is properly derived from the
vendor zone array `rzi` and the enabled-zones value `ezv`: it stems from a
0-based position `i` below MAX_ZONES whose vendor zone exists (truthily),
it is keyed `zone_<i+1>`, and its enabled flag is `enabledZones[i]` when
`i` is within the enabled-zones sequence and False otherwise. -/
def ZoneEntryOk (rzi : List JVal) (ezv : JVal) (p : String × JVal) : Prop :=
  ∃ i zfs ez, i < MAX_ZONES ∧ rzi.get? i = some (.obj zfs) ∧
    truthy ((zfs.lookup "NV_Exists").getD (.bool false)) = true ∧
    ezv = .arr ez ∧ p.1 = zoneKey i ∧
    getField p.2 "is_enabled" =
      (if i < ez.length then ez.getD i (.bool false) else .bool false)

/-- Every entry of a zones mapping is properly derived (see ZoneEntryOk). -/
def ZonesOk (rzi : List JVal) (ezv : JVal) (zl : List (String × JVal)) : Prop :=
  ∀ p ∈ zl, ZoneEntryOk rzi ezv p

/-- Frame facts about the zones list sent by a successful `set_zone_state`:
the copy has the cached sequence's length, agrees with it away from the
updated position, and carries the requested flag at that position. -/
def SetZoneFrame (ez : List JVal) (k : Nat) (b : Bool) : Prop :=
  (ez.set k (.bool b)).length = ez.length ∧
  (∀ j, j < ez.length → j ≠ k → (ez.set k (.bool b)).get? j = ez.get? j) ∧
  (k < ez.length → (ez.set k (.bool b)).get? k = some (.bool b))

/-- C1: a refresh performed while the API client reports itself unhealthy
makes no `get_ac_status` call, leaves the coordinator (in particular
`last_data`) unchanged, and returns the previous `last_data`, or an empty
state when no successful refresh has populated it yet. -/
theorem c1_unhealthy_short_circuit (c : Coordinator) (resp : ApiResponse) :
    (async_update_data c false resp).getStatusCalls = 0 ∧
    (async_update_data c false resp).coord = c ∧
    (async_update_data c false resp).result =
      .data (if truthy c.last_data then c.last_data else .obj []) :=
  ⟨rfl, rfl, rfl⟩

/-- C2: when the API client raises an authentication error during a healthy
refresh, the coordinator propagates ConfigEntryAuthFailed for every
coordinator state, in particular also when cached data exists — the
cached-state fallback never masks authentication failures. -/
theorem c2_auth_failure_propagates (c : Coordinator) (m : String) :
    (async_update_data c true (.authError m)).result = .configEntryAuthFailed ∧
    (async_update_data c true (.authError m)).coord = c :=
  ⟨rfl, rfl⟩

/-- C3: when the status fetch fails with a non-authentication API error or
with an unexpected error, the refresh makes exactly one `get_ac_status`
attempt, leaves the coordinator unchanged, and returns the cached
`last_data` when one exists, else propagates UpdateFailed. -/
theorem c3_error_masked_once (c : Coordinator) (m : String) :
    ((async_update_data c true (.apiError m)).result =
        (if truthy c.last_data then .data c.last_data
         else .updateFailed ("Error communicating with API: " ++ m)) ∧
      (async_update_data c true (.apiError m)).coord = c ∧
      (async_update_data c true (.apiError m)).getStatusCalls = 1) ∧
    ((async_update_data c true (.unexpectedError m)).result =
        (if truthy c.last_data then .data c.last_data
         else .updateFailed ("Unexpected error: " ++ m)) ∧
      (async_update_data c true (.unexpectedError m)).coord = c ∧
      (async_update_data c true (.unexpectedError m)).getStatusCalls = 1) := by
  cases h : truthy c.last_data <;>
    simp [async_update_data, h]

/-- The raw payload of the C4 scenario, exactly as the spec writes it (the
vendor sections at top level). -/
def c4payload : JVal := .obj [
  ("UserAirconSettings", .obj [("isOn", .bool true), ("Mode", .str "COOL"),
    ("FanMode", .str "LOW+CONT"), ("EnabledZones", .arr [.bool true, .bool false])]),
  ("RemoteZoneInfo", .arr [.obj [("NV_Exists", .bool true), ("NV_Title", .str "Living"),
    ("LiveTemp_oC", .num ((45 : ℚ) / 2))]]),
  ("AirconSystem", .obj [("Peripherals", .arr [])])]

/-- The same vendor sections nested under the `lastKnownState` wrapper that
`_parse_data` actually reads. -/
def c4wrapped : JVal := .obj [("lastKnownState", c4payload)]

/-- C4 counterexample: normalizing the scenario payload as the claim states
it (sections at top level) succeeds but yields the defaults — the base fan
mode is the empty string, not "LOW", and the zones mapping is empty, so
`zone_1` is absent — because `_parse_data` looks for the sections under the
`lastKnownState` key. -/
theorem c4_counterexample :
    exIsOk (parse_data false c4payload).2 = true ∧
    getField (getField (exOk (parse_data false c4payload).2) "main") "base_fan_mode" =
      .str "" ∧
    JVal.str "" ≠ JVal.str "LOW" ∧
    getField (getField (exOk (parse_data false c4payload).2) "main") "fan_continuous" =
      .bool false ∧
    getField (exOk (parse_data false c4payload).2) "zones" = .obj [] :=
  ⟨rfl, rfl, fun h => absurd (JVal.str.inj h) (by decide), rfl, rfl⟩

/-- C4 amended: normalizing the scenario payload nested under the
`lastKnownState` wrapper produces `main.base_fan_mode = "LOW"`,
`main.fan_continuous = true`, `zones.zone_1.is_enabled = true` and
`zones.zone_1.temp = 22.5`. -/
theorem c4_amended_normalization :
    getField (getField (exOk (parse_data false c4wrapped).2) "main") "base_fan_mode" =
      .str "LOW" ∧
    getField (getField (exOk (parse_data false c4wrapped).2) "main") "fan_continuous" =
      .bool true ∧
    getField (getField (getField (exOk (parse_data false c4wrapped).2) "zones") "zone_1")
      "is_enabled" = .bool true ∧
    getField (getField (getField (exOk (parse_data false c4wrapped).2) "zones") "zone_1")
      "temp" = .num ((45 : ℚ) / 2) :=
  ⟨rfl, rfl, rfl, rfl⟩

theorem splitCharList_ne_nil (c : Char) (l : List Char) : splitCharList c l ≠ [] := by
  cases l with
  | nil => simp [splitCharList]
  | cons x xs =>
    simp only [splitCharList]
    cases h : splitCharList c xs with
    | nil => simp
    | cons hh tt => by_cases hx : x == c <;> simp [hx]

theorem splitCharList_headD (c : Char) (l : List Char) :
    (splitCharList c l).headD [] = l.takeWhile (fun a => !(a == c)) := by
  induction l with
  | nil => rfl
  | cons x xs ih =>
    simp only [splitCharList]
    cases h : splitCharList c xs with
    | nil => exact absurd h (splitCharList_ne_nil c xs)
    | cons hh tt =>
      by_cases hx : x == c
      · simp [hx, List.takeWhile_cons]
      · rw [h] at ih
        simp [hx, List.takeWhile_cons, ← ih]

theorem contains_false_forall {c : Char} :
    ∀ {l : List Char}, l.contains c = false → ∀ a ∈ l, (a == c) = false := by
  intro l
  induction l with
  | nil => intro _ a ha; simp at ha
  | cons x xs ih =>
    intro h a ha
    simp only [List.contains_cons, Bool.or_eq_false_iff] at h
    rcases List.mem_cons.mp ha with rfl | hmem
    · have := h.1
      simp only [beq_eq_false_iff_ne] at this ⊢
      exact fun hac => this hac.symm
    · exact ih h.2 a hmem

theorem takeWhile_and (p q : Char → Bool) (l : List Char) :
    (l.takeWhile p).takeWhile q = l.takeWhile (fun a => p a && q a) := by
  induction l with
  | nil => rfl
  | cons x xs ih =>
    by_cases hp : p x <;> by_cases hq : q x <;>
      simp [List.takeWhile_cons, hp, hq, ih]

theorem takeWhile_congr_mem (p q : Char → Bool) :
    ∀ (l : List Char), (∀ a ∈ l, p a = q a) → l.takeWhile p = l.takeWhile q := by
  intro l
  induction l with
  | nil => intro _; rfl
  | cons x xs ih =>
    intro h
    have hx := h x (List.mem_cons_self x xs)
    by_cases hp : p x
    · have hq : q x = true := by rw [← hx]; exact hp
      simp [List.takeWhile_cons, hp, hq]
      exact ih fun a ha => h a (List.mem_cons_of_mem x ha)
    · have hq : q x = false := by rw [← hx]; simpa using hp
      simp [List.takeWhile_cons, hp, hq]

theorem takeWhile_all_true (p : Char → Bool) :
    ∀ (l : List Char), (∀ a ∈ l, p a = true) → l.takeWhile p = l := by
  intro l
  induction l with
  | nil => intro _; rfl
  | cons x xs ih =>
    intro h
    have hx := h x (List.mem_cons_self x xs)
    simp only [List.takeWhile_cons, hx, if_true]
    rw [ih fun a ha => h a (List.mem_cons_of_mem x ha)]

/-- C5 counterexample: on the fan-mode string "A-B+C", which contains a dash
before a plus sign, the code derives the base "A" — everything before the
first dash — whereas the claim says the base is everything before the first
plus sign, i.e. "A-B". -/
theorem c5_counterexample :
    baseFanMode "A-B+C" = "A" ∧ ("A" : String) ≠ "A-B" :=
  ⟨rfl, by decide⟩

/-- C5 amended: the normalizer derives the base fan mode by truncating the
string at the first occurrence of either separator, whichever comes first —
it splits at a plus sign when one is present and then additionally splits
the result at a dash when one is present — so the base is the longest
prefix free of both separators. -/
theorem c5_amended_truncates_at_first_separator (s : String) :
    baseFanMode s = String.mk (s.data.takeWhile (fun a => !(a == '+') && !(a == '-'))) := by
  obtain ⟨l⟩ := s
  show (let b := if l.contains '+' then String.mk ((splitCharList '+' l).headD []) else ⟨l⟩;
    if b.data.contains '-' then String.mk ((splitCharList '-' b.data).headD []) else b) =
      String.mk (l.takeWhile (fun a => !(a == '+') && !(a == '-')))
  simp only [splitCharList_headD]
  by_cases hp : l.contains '+'
  · simp only [hp, if_true]
    by_cases hq : (l.takeWhile (fun a => !(a == '+'))).contains '-'
    · simp [hq, takeWhile_and]
      intro hmem
      exact absurd (by simpa using hq) hmem
    · have hq' : (l.takeWhile (fun a => !(a == '+'))).contains '-' = false := by
        simpa using hq
      have hall : ∀ a ∈ l.takeWhile (fun a => !(a == '+')), (!(a == '-')) = true := by
        intro a ha
        simpa using contains_false_forall hq' a ha
      have heq := takeWhile_all_true (fun a => !(a == '-')) _ hall
      rw [takeWhile_and] at heq
      simp [hq', heq]
      intro hmem
      exact absurd hmem (by simpa using hq')
  · have hp' : l.contains '+' = false := by simpa using hp
    have hallp : ∀ a ∈ l, (a == '+') = false := contains_false_forall hp'
    simp only [hp', Bool.false_eq_true, if_false]
    by_cases hq : l.contains '-'
    · simp only [hq, if_true]
      refine congrArg String.mk ?_
      exact (takeWhile_congr_mem (fun a => !(a == '+') && !(a == '-'))
        (fun a => !(a == '-')) l fun a ha => by simp [hallp a ha]).symm
    · have hq' : l.contains '-' = false := by simpa using hq
      have hall : ∀ a ∈ l, ((fun a => !(a == '+') && !(a == '-')) a) = true := by
        intro a ha
        have h2 := contains_false_forall hq' a ha
        simp [hallp a ha, h2]
      simp only [hq', Bool.false_eq_true, if_false]
      rw [takeWhile_all_true _ l hall]

/-- A coordinator with zone control disabled, whose cached state has one
disabled zone in `EnabledZones` and an empty zones mapping. -/
def c7coordinator : Coordinator :=
  { enable_zone_control := false,
    last_data := .obj [("main", .obj [("EnabledZones", .arr [.bool false])]),
                       ("zones", .obj [])],
    continuous_fan := false }

/-- C7 counterexample: with zone control disabled, the target zone absent
from the zones mapping and marked disabled in `EnabledZones`,
`set_zone_state` nevertheless creates and sends a SET_ZONE_STATE command and
raises no ValueError — the validations the claim requires of every zone
operation are not performed by `set_zone_state`. -/
theorem c7_counterexample :
    c7coordinator.enable_zone_control = false ∧
    (set_zone_state c7coordinator (.str "zone_1") true).sentCommands =
      [Command.setZoneState [.bool true]] ∧
    (set_zone_state c7coordinator (.str "zone_1") true).result = .ok () ∧
    resultIsValueError (set_zone_state c7coordinator (.str "zone_1") true).result = false :=
  ⟨rfl, rfl, rfl, rfl⟩

/-- C7 amended: `set_zone_temperature` fails with ValueError and sends
nothing when zone control is disabled, when the target zone is missing from
the cached zones mapping, or when it is not enabled; `set_zone_state`
performs none of those validations and only fails with ValueError (sending
nothing) when the resolved index is out of the enabled-zones sequence's
bounds. -/
theorem c7_amended_zone_validation :
    (∀ (c : Coordinator) (zid : String) (t : ℚ) (tk : String),
      c.enable_zone_control = false →
      (set_zone_temperature c zid t tk).sentCommands = [] ∧
      resultIsValueError (set_zone_temperature c zid t tk).result = true ∧
      (set_zone_temperature c zid t tk).coord = c) ∧
    (∀ (c : Coordinator) (zid : String) (t : ℚ) (tk : String) (zones_data zd : JVal),
      c.enable_zone_control = true → truthy c.last_data = true →
      pyGet c.last_data "zones" (.obj []) = .ok zones_data →
      pyGet zones_data zid .null = .ok zd →
      truthy zd = false →
      (set_zone_temperature c zid t tk).sentCommands = [] ∧
      resultIsValueError (set_zone_temperature c zid t tk).result = true) ∧
    (∀ (c : Coordinator) (zid : String) (t : ℚ) (tk : String) (zones_data zd en : JVal),
      c.enable_zone_control = true → truthy c.last_data = true →
      pyGet c.last_data "zones" (.obj []) = .ok zones_data →
      pyGet zones_data zid .null = .ok zd →
      truthy zd = true →
      pyGet zd "is_enabled" (.bool false) = .ok en →
      truthy en = false →
      (set_zone_temperature c zid t tk).sentCommands = [] ∧
      resultIsValueError (set_zone_temperature c zid t tk).result = true) ∧
    (∀ (c : Coordinator) (zid : ZoneSel) (enable : Bool) (k : Int) (m : JVal) (ez : List JVal),
      zoneIndexOf zid = .ok k →
      pyIndex c.last_data "main" = .ok m →
      pyIndex m "EnabledZones" = .ok (.arr ez) →
      ¬(0 ≤ k ∧ k < (ez.length : Int)) →
      (set_zone_state c zid enable).sentCommands = [] ∧
      resultIsValueError (set_zone_state c zid enable).result = true) := by
  refine ⟨?_, ?_, ?_, ?_⟩
  · intro c zid t tk h
    simp [set_zone_temperature, h, resultIsValueError]
  · intro c zid t tk zones_data zd h1 h2 h3 h4 h5
    simp [set_zone_temperature, h1, h2, h3, h4, h5, resultIsValueError]
  · intro c zid t tk zones_data zd en h1 h2 h3 h4 h5 h6 h7
    simp [set_zone_temperature, h1, h2, h3, h4, h5, h6, h7, resultIsValueError]
  · intro c zid enable k m ez h1 h2 h3 h4
    simp [set_zone_state, h1, h2, h3, h4, resultIsValueError]

/-- A coordinator with zone control disabled and no cached data. -/
def c7wcoordinator : Coordinator :=
  { enable_zone_control := false, last_data := .null, continuous_fan := false }

theorem c7_amended_witness :
    (set_zone_temperature c7wcoordinator "zone_1" 22 "temp_setpoint_cool").sentCommands = [] ∧
    resultIsValueError
      (set_zone_temperature c7wcoordinator "zone_1" 22 "temp_setpoint_cool").result = true ∧
    (set_zone_temperature c7wcoordinator "zone_1" 22 "temp_setpoint_cool").coord =
      c7wcoordinator :=
  c7_amended_zone_validation.1 c7wcoordinator "zone_1" 22 "temp_setpoint_cool" rfl

/-- C10: a successful `set_zone_state` with in-bounds resolved index `k`
sends exactly one SET_ZONE_STATE command whose zones list is a copy of the
cached enabled-zones sequence updated at `k`, leaves the coordinator (and
hence the cached sequence) unchanged, and the sent list has the cached
sequence's length, agrees with it at every other position, and carries the
requested flag at `k`. -/
theorem c10_set_zone_state_copy (c : Coordinator) (zid : ZoneSel) (enable : Bool)
    (k : Int) (m : JVal) (ez : List JVal)
    (h1 : zoneIndexOf zid = .ok k)
    (h2 : pyIndex c.last_data "main" = .ok m)
    (h3 : pyIndex m "EnabledZones" = .ok (.arr ez))
    (h4 : 0 ≤ k) (h5 : k < (ez.length : Int)) :
    (set_zone_state c zid enable).result = .ok () ∧
    (set_zone_state c zid enable).coord = c ∧
    (set_zone_state c zid enable).sentCommands =
      [Command.setZoneState (ez.set k.toNat (.bool enable))] ∧
    SetZoneFrame ez k.toNat enable := by
  have hcond : 0 ≤ k ∧ k < (ez.length : Int) := ⟨h4, h5⟩
  refine ⟨?_, ?_, ?_, ?_, ?_, ?_⟩
  · simp [set_zone_state, h1, h2, h3, hcond]
  · simp [set_zone_state, h1, h2, h3, hcond]
  · simp [set_zone_state, h1, h2, h3, hcond]
  · exact List.length_set ez k.toNat (.bool enable)
  · intro j hj hne
    simp only [List.get?_eq_getElem?]
    exact List.getElem?_set_ne (Ne.symm hne)
  · intro hk
    simp only [List.get?_eq_getElem?]
    exact List.getElem?_set_eq_of_lt (.bool enable) hk

theorem ebind_ok {α β : Type} (a : α) (f : α → Except PyErr β) :
    (Except.ok a >>= f) = f a := rfl

theorem ebind_err {α β : Type} (e : PyErr) (f : α → Except PyErr β) :
    ((Except.error e : Except PyErr α) >>= f) = Except.error e := rfl

/-- C8: when the caller leaves the continuous flag unspecified, the
continuity `set_fan_mode` sends equals whether the fan-mode string last
observed in the current data ends with the "+CONT" suffix, the base sent is
the validated uppercased mode, and the coordinator records that continuity
locally. -/
theorem c8_sticky_continuity (c : Coordinator) (d : JVal) (mfs : List (String × JVal))
    (fm : String) (mode : String)
    (h1 : pyIndex d "main" = .ok (.obj mfs))
    (h2 : mfs.lookup "fan_mode" = some (.str fm)) :
    (set_fan_mode c d mode none).result = .ok () ∧
    (set_fan_mode c d mode none).sentFanCalls =
      [(pyFanBase mode, strEndsWith fm "+CONT")] ∧
    (set_fan_mode c d mode none).coord =
      { c with continuous_fan := strEndsWith fm "+CONT" } := by
  refine ⟨?_, ?_, ?_⟩ <;>
    simp [set_fan_mode, h1, h2, ebind_ok, pyGet, asStr, Option.getD, pure, Except.pure]

def c8coordinator : Coordinator :=
  { enable_zone_control := true, last_data := .null, continuous_fan := false }

def c8selfData : JVal := .obj [("main", .obj [("fan_mode", .str "LOW+CONT")])]

theorem c8_sticky_continuity_witness :
    (set_fan_mode c8coordinator c8selfData "high" none).sentFanCalls = [("HIGH", true)] :=
  ((c8_sticky_continuity c8coordinator c8selfData [("fan_mode", .str "LOW+CONT")]
    "LOW+CONT" "high" rfl rfl).2.1).trans rfl

theorem bind_ok_inv {α β : Type} {x : Except PyErr α} {f : α → Except PyErr β} {b : β}
    (h : x >>= f = .ok b) : ∃ a, x = .ok a ∧ f a = .ok b := by
  cases x with
  | ok a => exact ⟨a, rfl, h⟩
  | error e => rw [ebind_err] at h; exact Except.noConfusion h

theorem pyGet_ok_inv {v : JVal} {k : String} {d w : JVal} (h : pyGet v k d = .ok w) :
    ∃ fs, v = .obj fs ∧ w = (fs.lookup k).getD d := by
  cases v with
  | obj fs =>
    refine ⟨fs, rfl, ?_⟩
    simpa [pyGet] using h.symm
  | null => exact absurd h (by simp [pyGet])
  | bool b => exact absurd h (by simp [pyGet])
  | num q => exact absurd h (by simp [pyGet])
  | str s => exact absurd h (by simp [pyGet])
  | arr l => exact absurd h (by simp [pyGet])

theorem asArr_ok_inv {x : JVal} {l : List JVal} (h : asArr x = .ok l) : x = .arr l := by
  cases x with
  | arr a => exact congrArg JVal.arr (Except.ok.inj h)
  | null => exact absurd h (by simp [asArr])
  | bool b => exact absurd h (by simp [asArr])
  | num q => exact absurd h (by simp [asArr])
  | str s => exact absurd h (by simp [asArr])
  | obj fs => exact absurd h (by simp [asArr])

theorem phase1_ok_inv {data : JVal} {po : Phase1Out} (h : phase1 data = .ok po) :
    getField po.mainObj "fan_continuous" = JVal.bool po.isCont ∧
    po.lks = getFieldD data "lastKnownState" (.obj []) ∧
    po.ezv = ezOf data := by
  unfold phase1 at h
  obtain ⟨lks, hlks, h⟩ := bind_ok_inv h
  obtain ⟨uas, huas, h⟩ := bind_ok_inv h
  obtain ⟨master, hmaster, h⟩ := bind_ok_inv h
  obtain ⟨live, hlive, h⟩ := bind_ok_inv h
  obtain ⟨acsys, hacsys, h⟩ := bind_ok_inv h
  obtain ⟨alerts, halerts, h⟩ := bind_ok_inv h
  obtain ⟨fanModeV, hfmv, h⟩ := bind_ok_inv h
  obtain ⟨fanMode, hfm, h⟩ := bind_ok_inv h
  obtain ⟨isOn, hisOn, h⟩ := bind_ok_inv h
  obtain ⟨mode, hmode, h⟩ := bind_ok_inv h
  obtain ⟨tsc, htsc, h⟩ := bind_ok_inv h
  obtain ⟨tsh, htsh, h⟩ := bind_ok_inv h
  obtain ⟨itemp, hitemp, h⟩ := bind_ok_inv h
  obtain ⟨ihum, hihum, h⟩ := bind_ok_inv h
  obtain ⟨comp, hcomp, h⟩ := bind_ok_inv h
  obtain ⟨ezv, hezv, h⟩ := bind_ok_inv h
  obtain ⟨away, haway, h⟩ := bind_ok_inv h
  obtain ⟨quiet, hquiet, h⟩ := bind_ok_inv h
  obtain ⟨model, hmodel, h⟩ := bind_ok_inv h
  obtain ⟨serial, hserial, h⟩ := bind_ok_inv h
  obtain ⟨fw, hfw, h⟩ := bind_ok_inv h
  obtain ⟨filterClean, hfilter, h⟩ := bind_ok_inv h
  obtain ⟨defrosting, hdefrost, h⟩ := bind_ok_inv h
  have hpo := Except.ok.inj h
  subst hpo
  obtain ⟨dfs, hdata, hlksv⟩ := pyGet_ok_inv hlks
  have hb : lks = getFieldD data "lastKnownState" (.obj []) := by
    rw [hdata, hlksv]; rfl
  obtain ⟨lfs, hlksobj, huasv⟩ := pyGet_ok_inv huas
  obtain ⟨ufs, huasobj, hezvv⟩ := pyGet_ok_inv hezv
  refine ⟨rfl, hb, ?_⟩
  unfold ezOf
  rw [← hb, hlksobj]
  have e2 : getFieldD (JVal.obj lfs) "UserAirconSettings" (JVal.obj []) = uas := huasv.symm
  rw [e2, huasobj]
  exact hezvv

theorem phase2_ok_inv {po : Phase1Out} {zl : List (String × JVal)}
    (h : phase2 po = .ok zl) :
    ∃ periphV rzi,
      getFieldD po.lks "RemoteZoneInfo" (.arr []) = .arr rzi ∧
      buildZones po.ezv periphV 0 rzi = .ok zl := by
  unfold phase2 at h
  obtain ⟨rziV, hrziV, h⟩ := bind_ok_inv h
  obtain ⟨periphV, hperiphV, h⟩ := bind_ok_inv h
  obtain ⟨rzi, hrzi, h⟩ := bind_ok_inv h
  have hA := asArr_ok_inv hrzi
  obtain ⟨lfs, hlksobj, hrzival⟩ := pyGet_ok_inv hrziV
  refine ⟨periphV, rzi, ?_, h⟩
  rw [hlksobj]
  have : getFieldD (JVal.obj lfs) "RemoteZoneInfo" (JVal.arr []) = rziV := hrzival.symm
  rw [this, hA]

theorem parse_data_eq_of_ok {cf : Bool} {data : JVal} {po : Phase1Out}
    {zones : List (String × JVal)}
    (h1 : phase1 data = .ok po) (h2 : phase2 po = .ok zones) :
    parse_data cf data =
      (po.isCont,
        .ok (JVal.obj [("raw_data", data), ("main", po.mainObj), ("zones", .obj zones)])) := by
  unfold parse_data
  rw [h1]
  dsimp only
  rw [h2]

theorem parse_ok_shape {cf : Bool} {data v : JVal}
    (h : (parse_data cf data).2 = .ok v) :
    ∃ po zl, phase1 data = .ok po ∧ phase2 po = .ok zl ∧
      (parse_data cf data).1 = po.isCont ∧
      v = JVal.obj [("raw_data", data), ("main", po.mainObj), ("zones", .obj zl)] := by
  cases h1 : phase1 data with
  | error e =>
    exfalso
    unfold parse_data at h
    rw [h1] at h
    exact Except.noConfusion h
  | ok po =>
    cases h2 : phase2 po with
    | error e =>
      exfalso
      unfold parse_data at h
      rw [h1] at h
      dsimp only at h
      rw [h2] at h
      exact Except.noConfusion h
    | ok zl =>
      have heq := @parse_data_eq_of_ok cf data po zl h1 h2
      rw [heq] at h
      exact ⟨po, zl, rfl, h2, by rw [heq], (Except.ok.inj h).symm⟩

theorem mkZoneData_is_enabled {i : Nat} {zfs : List (String × JVal)} {ezv periphV zd : JVal}
    (h : mkZoneData i zfs ezv periphV = .ok zd) :
    ∃ ez, ezv = .arr ez ∧
      getField zd "is_enabled" =
        (if i < ez.length then ez.getD i (.bool false) else .bool false) := by
  unfold mkZoneData at h
  cases ezv with
  | arr ez =>
    obtain ⟨ie, hie, h⟩ := bind_ok_inv h
    have hiev := Except.ok.inj hie
    obtain ⟨pl, hpl, h⟩ := bind_ok_inv h
    obtain ⟨pres, hpres, h⟩ := bind_ok_inv h
    cases pres with
    | none =>
      have hz := Except.ok.inj h
      refine ⟨ez, rfl, ?_⟩
      rw [← hz, ← hiev]
      rfl
    | some pfs =>
      have hz := Except.ok.inj h
      refine ⟨ez, rfl, ?_⟩
      rw [← hz, ← hiev]
      rfl
  | null =>
    exfalso; dsimp only at h; rw [ebind_err] at h; exact Except.noConfusion h
  | bool b =>
    exfalso; dsimp only at h; rw [ebind_err] at h; exact Except.noConfusion h
  | num q =>
    exfalso; dsimp only at h; rw [ebind_err] at h; exact Except.noConfusion h
  | str s =>
    exfalso; dsimp only at h; rw [ebind_err] at h; exact Except.noConfusion h
  | obj fs =>
    exfalso; dsimp only at h; rw [ebind_err] at h; exact Except.noConfusion h

theorem buildZones_mem {ezv periphV : JVal} :
    ∀ (rzi : List JVal) (n : Nat) (zl : List (String × JVal)),
      buildZones ezv periphV n rzi = .ok zl →
      ∀ p ∈ zl, ∃ j zfs ez, n + j < MAX_ZONES ∧ rzi.get? j = some (.obj zfs) ∧
        truthy ((zfs.lookup "NV_Exists").getD (.bool false)) = true ∧
        ezv = .arr ez ∧ p.1 = zoneKey (n + j) ∧
        getField p.2 "is_enabled" =
          (if n + j < ez.length then ez.getD (n + j) (.bool false) else .bool false) := by
  intro rzi
  induction rzi with
  | nil =>
    intro n zl h p hp
    simp only [buildZones] at h
    rw [← Except.ok.inj h] at hp
    simp at hp
  | cons z rest ih =>
    intro n zl h p hp
    by_cases hn : n < MAX_ZONES
    · cases z with
      | obj zfs =>
        rw [buildZones, if_pos hn] at h
        by_cases ht : truthy ((zfs.lookup "NV_Exists").getD (.bool false)) = true
        · rw [if_pos ht] at h
          obtain ⟨zd, hzd, h⟩ := bind_ok_inv h
          obtain ⟨tail, htail, h⟩ := bind_ok_inv h
          rw [← Except.ok.inj h] at hp
          rcases List.mem_cons.mp hp with rfl | hmem
          · obtain ⟨ez, hezArr, hie⟩ := mkZoneData_is_enabled hzd
            exact ⟨0, zfs, ez, by simpa using hn, by simp, ht, hezArr, by simp,
              by simpa using hie⟩
          · obtain ⟨j, zfs2, ez, hj1, hj2, hj3, hj4, hj5, hj6⟩ := ih (n + 1) tail htail p hmem
            refine ⟨j + 1, zfs2, ez, by omega, ?_, hj3, hj4, ?_, ?_⟩
            · rw [List.get?_cons_succ]; exact hj2
            · rw [show n + (j + 1) = n + 1 + j from by omega]; exact hj5
            · rw [show n + (j + 1) = n + 1 + j from by omega]; exact hj6
        · rw [if_neg ht] at h
          obtain ⟨j, zfs2, ez, hj1, hj2, hj3, hj4, hj5, hj6⟩ := ih (n + 1) zl h p hp
          refine ⟨j + 1, zfs2, ez, by omega, ?_, hj3, hj4, ?_, ?_⟩
          · rw [List.get?_cons_succ]; exact hj2
          · rw [show n + (j + 1) = n + 1 + j from by omega]; exact hj5
          · rw [show n + (j + 1) = n + 1 + j from by omega]; exact hj6
      | null => simp [buildZones, hn] at h
      | bool b => simp [buildZones, hn] at h
      | num q => simp [buildZones, hn] at h
      | str s => simp [buildZones, hn] at h
      | arr l => simp [buildZones, hn] at h
    · have h2 : buildZones ezv periphV (n + 1) rest = .ok zl := by
        cases z <;> simp only [buildZones, hn, if_false] at h <;> exact h
      obtain ⟨j, zfs2, ez, hj1, hj2, hj3, hj4, hj5, hj6⟩ := ih (n + 1) zl h2 p hp
      refine ⟨j + 1, zfs2, ez, by omega, ?_, hj3, hj4, ?_, ?_⟩
      · rw [List.get?_cons_succ]; exact hj2
      · rw [show n + (j + 1) = n + 1 + j from by omega]; exact hj5
      · rw [show n + (j + 1) = n + 1 + j from by omega]; exact hj6

/-- C6: for every raw payload whose normalization succeeds, every entry of
the produced zones mapping stems from a vendor zone position `i` below the
fixed maximum of 8 whose zone is marked existing, is keyed `zone_<i+1>`, and
its enabled flag equals `enabledZones[i]` when `i` is within the
enabled-zones sequence and False when the sequence is shorter — no
out-of-bounds access. -/
theorem c6_zone_inclusion (cf : Bool) (data v : JVal)
    (h : (parse_data cf data).2 = .ok v) :
    ZonesOk (rziOf data) (ezOf data) (zonesOf v) := by
  obtain ⟨po, zl, h1, h2, hcf, hv⟩ := parse_ok_shape h
  obtain ⟨hfc, hlks, hezv⟩ := phase1_ok_inv h1
  obtain ⟨periphV, rzi, hrziField, hbz⟩ := phase2_ok_inv h2
  have hzv : zonesOf v = zl := by rw [hv]; rfl
  have hrzi : rziOf data = rzi := by
    unfold rziOf
    rw [← hlks, hrziField]
  rw [hzv, hrzi, ← hezv]
  intro p hp
  obtain ⟨j, zfs, ez, hj1, hj2, hj3, hj4, hj5, hj6⟩ :=
    buildZones_mem rzi 0 zl hbz p hp
  exact ⟨j, zfs, ez, by simpa using hj1, hj2, hj3, hj4, by simpa using hj5,
    by simpa using hj6⟩

/-- A small payload with one existing zone, used to instantiate C6. -/
def c6payload : JVal := .obj [("lastKnownState", .obj [
  ("UserAirconSettings", .obj [("FanMode", .str "LOW"),
    ("EnabledZones", .arr [.bool true])]),
  ("RemoteZoneInfo", .arr [.obj [("NV_Exists", .bool true)]]),
  ("AirconSystem", .obj [("Peripherals", .arr [])])])]

theorem c6_zone_inclusion_witness :
    ZonesOk (rziOf c6payload) (ezOf c6payload)
      (zonesOf (exOk (parse_data false c6payload).2)) :=
  c6_zone_inclusion false c6payload (exOk (parse_data false c6payload).2) rfl

/-- A payload whose fan mode carries the continuous suffix. -/
def c9payload : JVal := .obj [("lastKnownState", .obj [
  ("UserAirconSettings", .obj [("FanMode", .str "LOW+CONT")])])]

/-- C9 counterexample: running `_parse_data` with `_continuous_fan` equal to
False on a payload whose fan mode is "LOW+CONT" succeeds and leaves
`_continuous_fan` equal to True — normalization mutates coordinator state
outside its returned value (line 143), so the property does not hold. -/
theorem c9_counterexample :
    (parse_data false c9payload).1 = true ∧
    (parse_data false c9payload).1 ≠ false ∧
    exIsOk (parse_data false c9payload).2 = true :=
  ⟨rfl, by decide, rfl⟩

/-- C9 amended: `_parse_data` is pure except for one deliberate effect: it
stores the freshly derived continuity flag into `_continuous_fan`, so after
a successful normalization the coordinator's continuous-fan value equals the
returned state's `main.fan_continuous` (the payload-derived value), not
necessarily the value held before the call. -/
theorem c9_amended_continuous_fan (cf : Bool) (data v : JVal)
    (h : (parse_data cf data).2 = .ok v) :
    getField (getField v "main") "fan_continuous" =
      .bool ((parse_data cf data).1) := by
  obtain ⟨po, zl, h1, h2, hcf, hv⟩ := parse_ok_shape h
  obtain ⟨hfc, hlks, hezv⟩ := phase1_ok_inv h1
  rw [hv, hcf]
  have hm : getField (JVal.obj [("raw_data", data), ("main", po.mainObj),
      ("zones", .obj zl)]) "main" = po.mainObj := rfl
  rw [hm, hfc]

theorem c9_amended_witness :
    getField (getField (exOk (parse_data false c9payload).2) "main") "fan_continuous" =
      .bool ((parse_data false c9payload).1) :=
  c9_amended_continuous_fan false c9payload (exOk (parse_data false c9payload).2) rfl

/-- A coordinator whose cached state has two zones, the first disabled. -/
def c10coordinator : Coordinator :=
  { enable_zone_control := true,
    last_data := .obj [("main", .obj [("EnabledZones", .arr [.bool false, .bool true])])],
    continuous_fan := false }

theorem c10_set_zone_state_copy_witness :
    (set_zone_state c10coordinator (.str "zone_1") true).result = .ok () ∧
    (set_zone_state c10coordinator (.str "zone_1") true).coord = c10coordinator ∧
    (set_zone_state c10coordinator (.str "zone_1") true).sentCommands =
      [Command.setZoneState ([JVal.bool false, .bool true].set (Int.toNat 0) (.bool true))] ∧
    SetZoneFrame [JVal.bool false, .bool true] (Int.toNat 0) true :=
  c10_set_zone_state_copy c10coordinator (.str "zone_1") true 0
    (.obj [("EnabledZones", .arr [.bool false, .bool true])])
    [JVal.bool false, .bool true] rfl rfl rfl (by decide) (by decide)
